import Mathlib

/-!
# Verification of the okroshka IR loader and validator

Shallow embedding of the okroshka compiler-IR loader (a Rust program)
together with proofs about its decoder and whole-module validator.

The embedding mirrors the Rust sources:
* `src/okroshka/ir/*.rs` — the IR data model (types, blocks, functions,
  data objects, string literals, inline assembly, module);
* `src/okroshka/loader/ir.rs` — the serde-based decoder from a generic
  JSON value tree into the typed entities;
* `build.rs` (`gen_instr_loader` / `gen_opcodes`) — the generated
  instruction codec, modelled parametrically over the opcode registry.

Conventions:
* Rust `u64` / `usize` values are modelled as `Nat` (all values produced
  by the decoder come from `serde_json` `u64` accessors, so no overflow
  arithmetic occurs in the modelled paths; the single place the code
  truncates — `as u32` in `deserialize_instr_u32` — is modelled explicitly
  with `% 2^32`).
* Rust `HashMap`s are modelled as association lists; iteration of the
  validator over a map is modelled as iteration over the list, which is
  adequate because every success/failure fact proved below is independent
  of iteration order.
* IEEE floating-point payload *values* are not modelled; where the Rust
  code stores an `f32`/`f64` the embedding keeps the underlying JSON
  number token (none of the verified claims inspects a float value).
-/

namespace Okroshka

/-- A `serde_json` number: an unsigned 64-bit integer, a negative signed
64-bit integer, or a floating value (whose numeric value the embedding
does not inspect). -/

inductive JNumber where
  | posInt (n : Nat)
  | negInt (v : Int)
  | float
  deriving DecidableEq, Repr

/-- `serde_json::Number::as_u64`: `Some` exactly for the unsigned variant. -/

def JNumber.asU64 : JNumber → Option Nat
  | .posInt n => some n
  | _ => none

/-- `serde_json::Number::as_i64`: an unsigned value must fit in `i64`;
negative values are returned as-is; floats yield `None`. -/

def JNumber.asI64 : JNumber → Option Int
  | .posInt n => if n ≤ 9223372036854775807 then some (n : Int) else none
  | .negInt v => some v
  | .float => none

/-- `serde_json::Number::is_u64`. -/

def JNumber.isU64 (n : JNumber) : Bool := n.asU64.isSome

/-- `serde_json::Number::is_i64`. -/

def JNumber.isI64 (n : JNumber) : Bool := n.asI64.isSome

/-- `serde_json::Number::is_f64`: true exactly for the floating variant. -/

def JNumber.isF64 : JNumber → Bool
  | .float => true
  | _ => false

/-- A `serde_json::Value` tree. -/

inductive JValue where
  | null
  | bool (b : Bool)
  | num (n : JNumber)
  | str (s : String)
  | arr (elems : List JValue)
  | obj (fields : List (String × JValue))
  deriving Repr

/-- First field of an object with the given key (`serde_json` map lookup). -/

def findField (fields : List (String × JValue)) (key : String) : Option JValue :=
  match fields with
  | [] => none
  | (k, v) :: rest => if k = key then some v else findField rest key

/-- `Value::get` with a string index: defined on objects only. -/

def JValue.get (v : JValue) (key : String) : Option JValue :=
  match v with
  | .obj fields => findField fields key
  | _ => none

/-- `Value::as_str`. -/

def JValue.asStr : JValue → Option String
  | .str s => some s
  | _ => none

/-- `Value::as_bool`. -/

def JValue.asBool : JValue → Option Bool
  | .bool b => some b
  | _ => none

/-- `Value::as_u64`. -/

def JValue.asU64 : JValue → Option Nat
  | .num n => n.asU64
  | _ => none

/-- `Value::as_i64`. -/

def JValue.asI64 : JValue → Option Int
  | .num n => n.asI64
  | _ => none

/-- `Value::as_f64` restricted to what the embedding tracks: it succeeds on
any number, returning the number token itself (the IEEE conversion is not
modelled). -/

def JValue.asF64 : JValue → Option JNumber
  | .num n => some n
  | _ => none

/-- `Value::as_array`. -/

def JValue.asArray : JValue → Option (List JValue)
  | .arr xs => some xs
  | _ => none

/-- `Value::is_object`. -/

def JValue.isObj : JValue → Bool
  | .obj _ => true
  | _ => false

/-- `type IRIdentifier = u64` (`core.rs`). -/

abbrev IRIdentifier := Nat

/-- `struct IRError(pub String)` (`core.rs`). -/

structure IRError where
  msg : String
  deriving DecidableEq, Repr

/-- `struct IRTypeRef` (`datatype.rs`). -/

structure IRTypeRef where
  type_id : IRIdentifier
  type_index : Nat
  deriving DecidableEq, Repr

/-- `enum IRTypeEntry` (`datatype.rs`); the `Builtin` variant's only
payload class is `VarargList`, so it carries no further data here. -/

inductive IRTypeEntry where
  | Struct (alignment : Option Nat) (num_of_fields : Nat)
  | Array (alignment : Option Nat) (length : Nat)
  | Union (alignment : Option Nat) (num_of_fields : Nat)
  | Int8 (alignment : Option Nat)
  | Int16 (alignment : Option Nat)
  | Int32 (alignment : Option Nat)
  | Int64 (alignment : Option Nat)
  | Float32 (alignment : Option Nat)
  | Float64 (alignment : Option Nat)
  | LongDouble (alignment : Option Nat)
  | Bool (alignment : Option Nat)
  | Char (alignment : Option Nat)
  | Short (alignment : Option Nat)
  | Int (alignment : Option Nat)
  | Long (alignment : Option Nat)
  | Word (alignment : Option Nat)
  | Bits (alignment : Option Nat) (width : Nat)
  | Builtin (alignment : Option Nat)
  deriving DecidableEq, Repr

/-- `struct IRType` (`datatype.rs`). -/

structure IRType where
  id : IRIdentifier
  content : List IRTypeEntry
  deriving DecidableEq, Repr

/-- `IRType::len`: number of flattened type entries. -/

def IRType.len (t : IRType) : Nat := t.content.length

/-- `enum IRSymbol` (`symbol.rs`). -/

inductive IRSymbol where
  | Global (s : String)
  | ThreadLocal (s : String)
  deriving DecidableEq, Repr

/-- `IRSymbol::name`. -/

def IRSymbol.name : IRSymbol → String
  | .Global s => s
  | .ThreadLocal s => s

/-- `struct IRFunctionDeclaration` (`function.rs`). -/

structure IRFunctionDeclaration where
  id : IRIdentifier
  name : Option String
  params : IRIdentifier
  vararg : Bool
  result : IRIdentifier
  deriving DecidableEq, Repr

/-- The normalized argument view `enum IRInstructionArgument` (`instr.rs`).
In the embedding an instruction carries its argument directly in this
normalized shape: the generated `argument()` accessor of `build.rs` maps
each opcode's payload to the view determined by the opcode's payload
class, and the generated decoder fills the payload via that same class,
so the pair (registry row, normalized argument) carries exactly the
information of the Rust enum variant with its typed payload.  Floating
payload values are not modelled (no claim inspects them). -/

inductive IRInstructionArgument where
  | none
  | integer (v : Int)
  | uinteger (v : Nat)
  | uintegerPair (x y : Nat)
  | boolean (b : Bool)
  | float64
  | float32
  | string (id : Nat)
  | typeRef (r : IRTypeRef)
  | codeRef (v : Nat)
  | identifier (s : String)
  | functionRef (id : Nat) (name : Option String)
  | memFlags (volatile : Bool)
  deriving DecidableEq, Repr

/-- The generated `enum IRInstruction` (one variant per registered opcode):
modelled as the index of the opcode's row in the registry together with
the normalized payload. -/

structure IRInstruction where
  tag : Nat
  arg : IRInstructionArgument
  deriving DecidableEq, Repr

/-- `struct IRBlock` (`block.rs`). -/

structure IRBlock where
  code : List IRInstruction
  deriving DecidableEq, Repr

/-- `IRBlock::len`. -/

def IRBlock.len (b : IRBlock) : Nat := b.code.length

/-- `struct IRFunction` (`function.rs`). -/

structure IRFunction where
  name : String
  declaration : IRIdentifier
  locals : IRIdentifier
  body : IRBlock
  deriving DecidableEq, Repr

/-- `enum IRDataStorage` (`data.rs`). -/

inductive IRDataStorage where
  | Global
  | ThreadLocal
  deriving DecidableEq, Repr

/-- `enum IRDataElement` (`data.rs`); the three floating variants keep the
JSON number token in place of the converted IEEE value. -/

inductive IRDataElement where
  | Undefined (count : Nat)
  | Integer (v : Int)
  | Float32 (v : JNumber)
  | Float64 (v : JNumber)
  | LongDouble (v : JNumber)
  | String (bytes : List Nat)
  | Pointer (base : String) (offset : Int)
  | StringPointer (base : IRIdentifier) (offset : Int)
  | Raw (bytes : List Nat)
  | Aggregate
  deriving DecidableEq, Repr

/-- `struct IRData` (`data.rs`). -/

structure IRData where
  name : String
  storage : IRDataStorage
  datatype : IRIdentifier
  data : List IRDataElement
  deriving DecidableEq, Repr

/-- `enum IRStringLiteralContent` (`string_literal.rs`): byte string,
UTF-16 code units, or UTF-32 code points (all as `Nat` sequences). -/

inductive IRStringLiteralContent where
  | Multibyte (bytes : List Nat)
  | Unicode16 (units : List Nat)
  | Unicode32 (points : List Nat)
  deriving DecidableEq, Repr

/-- `struct IRStringLiteral` (`string_literal.rs`). -/

structure IRStringLiteral where
  id : IRIdentifier
  public : Bool
  content : IRStringLiteralContent
  deriving DecidableEq, Repr

/-- `enum IRInlineAssemblyParameterClass` (`assembly.rs`). -/

inductive IRInlineAssemblyParameterClass where
  | ImmediateConstant (tr : IRTypeRef) (value : Int)
  | ImmediateIdentifierBased (tr : IRTypeRef) (name : String) (value : Int)
  | ImmediateLiteralBased (tr : IRTypeRef) (literal : IRIdentifier) (value : Int)
  | Read (tr : IRTypeRef) (index : Nat)
  | Load (tr : IRTypeRef) (index : Nat)
  | Store (tr : IRTypeRef) (index : Nat)
  | LoadStore (tr : IRTypeRef) (index : Nat)
  | ReadStore (trFrom : IRTypeRef) (fromIndex : Nat) (trTo : IRTypeRef) (toIndex : Nat)
  deriving DecidableEq, Repr

/-- `enum IRInlineAssemblyParameterConstraint` (`assembly.rs`). -/

inductive IRInlineAssemblyParameterConstraint where
  | None
  | Register
  | Memory
  | RegisterMemory
  deriving DecidableEq, Repr

/-- `struct IRInlineAssemblyParameter` (`assembly.rs`). -/

structure IRInlineAssemblyParameter where
  id : IRIdentifier
  aliases : List String
  klass : IRInlineAssemblyParameterClass
  constraint : IRInlineAssemblyParameterConstraint
  deriving DecidableEq, Repr

/-- `struct IRInlineAssemblyJumpTarget` (`assembly.rs`). -/

structure IRInlineAssemblyJumpTarget where
  id : IRIdentifier
  aliases : List String
  target_function : String
  target_offset : Nat
  deriving DecidableEq, Repr

/-- `enum IRInlineAssemblyIndexedAlias` (`assembly.rs`). -/

inductive IRInlineAssemblyIndexedAlias where
  | Parameter (id : IRIdentifier)
  | JumpTarget (id : IRIdentifier)
  deriving DecidableEq, Repr

/-- `struct IRInlineAssembly` (`assembly.rs`); the two `HashMap`s keyed by
identifier and the alias index keyed by alias string are association
lists. -/

structure IRInlineAssembly where
  id : IRIdentifier
  global : Bool
  template : String
  parameters : List (IRIdentifier × IRInlineAssemblyParameter)
  clobbers : List String
  jump_targets : List (IRIdentifier × IRInlineAssemblyJumpTarget)
  alias_index : List (String × IRInlineAssemblyIndexedAlias)
  deriving DecidableEq, Repr

/-- `struct IRModule` (`module.rs`): the eight tables, each a keyed
association list. -/

structure IRModule where
  globals : List (String × IRSymbol)
  externals : List (String × IRSymbol)
  types : List (IRIdentifier × IRType)
  string_literals : List (IRIdentifier × IRStringLiteral)
  function_declarations : List (IRIdentifier × IRFunctionDeclaration)
  functions : List (String × IRFunction)
  data : List (String × IRData)
  inline_asm : List (IRIdentifier × IRInlineAssembly)
  deriving DecidableEq, Repr

/-- `deserialize_instr_u64`: the required `"arg"` field must be an
unsigned-integer number. -/

def deserialize_instr_u64 (value : JValue) : Except String Nat :=
  match value.get "arg" with
  | some (.num x) =>
    match x.asU64 with
    | some n => .ok n
    | none => .error "unable to deserialize IR instruction argument"
  | _ => .error "unable to deserialize IR instruction argument"

/-- `deserialize_instr_usize`: same as `deserialize_instr_u64`; the
`as usize` cast is the identity on a 64-bit target. -/

def deserialize_instr_usize (value : JValue) : Except String Nat :=
  match value.get "arg" with
  | some (.num x) =>
    match x.asU64 with
    | some n => .ok n
    | none => .error "unable to deserialize IR instruction argument"
  | _ => .error "unable to deserialize IR instruction argument"

/-- `deserialize_instr_i64`: the required `"arg"` field must be a number
fitting in a signed 64-bit integer. -/

def deserialize_instr_i64 (value : JValue) : Except String Int :=
  match value.get "arg" with
  | some (.num x) =>
    match x.asI64 with
    | some n => .ok n
    | none => .error "unable to deserialize IR instruction argument"
  | _ => .error "unable to deserialize IR instruction argument"

/-- `deserialize_instr_f64`: the required `"arg"` field must be a floating
number (`is_f64`); the IEEE value itself is not modelled. -/

def deserialize_instr_f64 (value : JValue) : Except String Unit :=
  match value.get "arg" with
  | some (.num x) => if x.isF64 then .ok () else .error "unable to deserialize IR instruction argument"
  | _ => .error "unable to deserialize IR instruction argument"

/-- `deserialize_instr_f32`: identical acceptance condition to
`deserialize_instr_f64`, then narrows `as f32` (value not modelled). -/

def deserialize_instr_f32 (value : JValue) : Except String Unit :=
  match value.get "arg" with
  | some (.num x) => if x.isF64 then .ok () else .error "unable to deserialize IR instruction argument"
  | _ => .error "unable to deserialize IR instruction argument"

/-- `deserialize_instr_u32`: the required `"arg"` field must be a
2-element array of unsigned integers; each element is cast `as u32`,
i.e. truncated to its low 32 bits. -/

def deserialize_instr_u32 (value : JValue) : Except String (Nat × Nat) :=
  match value.get "arg" with
  | some (.arr [a, b]) =>
    match a.asU64, b.asU64 with
    | some x, some y => .ok (x % 4294967296, y % 4294967296)
    | _, _ => .error "unable to deserialize IR instruction argument"
  | _ => .error "unable to deserialize IR instruction argument"

/-- `deserialize_instr_bool`. -/

def deserialize_instr_bool (value : JValue) : Except String Bool :=
  match value.get "arg" with
  | some (.bool x) => .ok x
  | _ => .error "unable to deserialize IR instruction argument"

/-- `deserialize_instr_typeref`: reads `"type"` and `"index"` from the
`"arg"` object as required unsigned integers. -/

def deserialize_instr_typeref (value : JValue) : Except String IRTypeRef :=
  match value.get "arg" with
  | some x =>
    match (x.get "type").bind JValue.asU64 with
    | none => .error "unable to deserialize IR instruction argument"
    | some type_id =>
      match (x.get "index").bind JValue.asU64 with
      | none => .error "unable to deserialize IR instruction argument"
      | some type_index => .ok ⟨type_id, type_index⟩
  | none => .error "unable to deserialize IR instruction argument"

/-- `deserialize_instr_identifier`: the `"arg"` object must have a
`"data"` field holding a string. -/

def deserialize_instr_identifier (value : JValue) : Except String String :=
  match value.get "arg" with
  | some x =>
    if (x.get "data").isSome then
      match (x.get "data").bind JValue.asStr with
      | some s => .ok s
      | none => .error "unable to deserialize IR instruction argument"
    else .error "unable to deserialize IR instruction argument"
  | none => .error "unable to deserialize IR instruction argument"

/-- `deserialize_instr_funcref`: the `"arg"` object must have an
`"identifier"` unsigned integer; the `"name"` field may be a string,
explicit `null` or absent (both meaning no name). -/

def deserialize_instr_funcref (value : JValue) : Except String (Nat × Option String) :=
  match value.get "arg" with
  | some x =>
    if (x.get "identifier").isSome then
      match (x.get "identifier").bind JValue.asU64 with
      | none => .error "unable to deserialize IR instruction argument"
      | some identifier =>
        match x.get "name" with
        | some (.str s) => .ok (identifier, some s)
        | some .null => .ok (identifier, none)
        | none => .ok (identifier, none)
        | some _ => .error "unable to deserialize IR instruction argument"
    else .error "unable to deserialize IR instruction argument"
  | none => .error "unable to deserialize IR instruction argument"

/-- `deserialize_instr_memflags`: reads the required boolean `"volatile"`
sub-field of the `"memory_flags"` object. -/

def deserialize_instr_memflags (value : JValue) : Except String Bool :=
  match value.get "memory_flags" with
  | some x =>
    if x.isObj then
      match (x.get "volatile").bind JValue.asBool with
      | some b => .ok b
      | none => .error "unable to deserialize IR instruction memory flags"
    else .error "unable to deserialize IR instruction argument"
  | none => .error "unable to deserialize IR instruction argument"

/-- `enum OpcodeClass` (`build.rs`): the payload shape of an opcode. -/

inductive OpcodeClass where
  | none
  | coderef
  | funcref
  | typeref
  | i64
  | u64
  | u32
  | f64
  | f32
  | bool
  | string
  | identifier
  | memflags
  deriving DecidableEq, Repr

/-- One row of the opcode registry (`struct Opcode` in `build.rs`). -/

structure OpcodeSpec where
  identifier : String
  mnemonic : String
  code : Nat
  klass : OpcodeClass
  deriving DecidableEq, Repr

/-- Per-shape payload decoding, exactly as dispatched by the generated
match arms of `gen_instr_loader`: each shape class calls its
`deserialize_instr_*` helper and wraps the value in the normalized
argument constructor the generated `argument()` accessor would expose. -/

def decodePayload (klass : OpcodeClass) (value : JValue) : Except String IRInstructionArgument :=
  match klass with
  | .none => .ok .none
  | .i64 => (deserialize_instr_i64 value).map .integer
  | .u64 => (deserialize_instr_u64 value).map .uinteger
  | .string => (deserialize_instr_u64 value).map .string
  | .coderef => (deserialize_instr_usize value).map .codeRef
  | .u32 => (deserialize_instr_u32 value).map fun p => .uintegerPair p.1 p.2
  | .funcref => (deserialize_instr_funcref value).map fun p => .functionRef p.1 p.2
  | .identifier => (deserialize_instr_identifier value).map .identifier
  | .typeref => (deserialize_instr_typeref value).map .typeRef
  | .f32 => (deserialize_instr_f32 value).map fun _ => .float32
  | .f64 => (deserialize_instr_f64 value).map fun _ => .float64
  | .bool => (deserialize_instr_bool value).map .boolean
  | .memflags => (deserialize_instr_memflags value).map .memFlags

/-- Outcome of running the generated decoder: a decoded instruction, a
recoverable decode error, or an abort of the process.  The `fatal`
constructor models a Rust panic (`Result::unwrap` on an `Err`). -/

inductive DecodeOutcome (α : Type) where
  | ok (val : α)
  | err (msg : String)
  | fatal (msg : String)
  deriving DecidableEq, Repr

/-- The match arms of the generated `deserialize_instruction`: the first
registry row whose mnemonic equals the opcode symbol decodes the payload
by its shape class; `idx` tracks the absolute registry index of the row.
The generated fall-through arm is
`&_ => Err(D::Error::custom("Unable to deserialize instruction".to_owned())).unwrap()`
(`build.rs` line 199): it builds a decode error and immediately calls
`Result::unwrap` on it, which panics. -/

def deserializeInstrArms (value : JValue) (opcode_sym : String) :
    List OpcodeSpec → Nat → DecodeOutcome IRInstruction
  | [], _ => .fatal "Unable to deserialize instruction"
  | op :: rest, idx =>
    if op.mnemonic = opcode_sym then
      match decodePayload op.klass value with
      | .ok arg => .ok ⟨idx, arg⟩
      | .error e => .err e
    else deserializeInstrArms value opcode_sym rest (idx + 1)

/-- The generated `deserialize_instruction(opcode_sym, value)` for a given
opcode registry. -/

def deserialize_instruction (reg : List OpcodeSpec) (opcode_sym : String)
    (value : JValue) : DecodeOutcome IRInstruction :=
  deserializeInstrArms value opcode_sym reg 0

/-- The generated `IRInstruction::mnemonic`: the mnemonic of the registry
row the instruction's variant belongs to. -/

def IRInstruction.mnemonic (reg : List OpcodeSpec) (i : IRInstruction) : Option String :=
  (reg[i.tag]?).map OpcodeSpec.mnemonic

/-- The generated `IRInstruction::code`: the numeric code of the registry
row the instruction's variant belongs to. -/

def IRInstruction.code (reg : List OpcodeSpec) (i : IRInstruction) : Option Nat :=
  (reg[i.tag]?).map OpcodeSpec.code

/-- `IRInlineAssembly::deserialize_param_class`: reads a type reference
(from `type_field` / `type_index_field`) and a slot index (from
`index_field`), all required unsigned integers of the parameter record. -/

def deserialize_param_class (param_value : JValue)
    (type_field type_index_field index_field : String) :
    Except String (IRTypeRef × Nat) :=
  match (param_value.get type_field).bind JValue.asU64 with
  | none => .error "unable to deserialize IR inline assembly class"
  | some type_id =>
    match (param_value.get type_index_field).bind JValue.asU64 with
    | none => .error "unable to deserialize IR inline assembly class"
    | some type_index =>
      match (param_value.get index_field).bind JValue.asU64 with
      | none => .error "unable to deserialize IR inline assembly class"
      | some index => .ok (⟨type_id, type_index⟩, index)

/-- The `param_class` computation inside `IRInlineAssembly::deserialize`
(`loader/ir.rs` lines 611–673), dispatching on the parameter record's
`"class"` tag; the `"immediate"` branch further dispatches on `"variant"`,
where the source matches `param_value.as_str()` / `param_value.as_u64()`
on the whole parameter record. -/

def deserializeParamKlass (param_value : JValue) :
    Except String IRInlineAssemblyParameterClass :=
  match (param_value.get "class").bind JValue.asStr with
  | some "read" =>
    match deserialize_param_class param_value "type" "type_index" "from" with
    | .error e => .error e
    | .ok p => .ok (.Read p.1 p.2)
  | some "load" =>
    match deserialize_param_class param_value "type" "type_index" "from" with
    | .error e => .error e
    | .ok p => .ok (.Load p.1 p.2)
  | some "store" =>
    match deserialize_param_class param_value "type" "type_index" "to" with
    | .error e => .error e
    | .ok p => .ok (.Store p.1 p.2)
  | some "load_store" =>
    match deserialize_param_class param_value "type" "type_index" "from_to" with
    | .error e => .error e
    | .ok p => .ok (.LoadStore p.1 p.2)
  | some "read_store" =>
    match deserialize_param_class param_value "from_type" "from_type_index" "from" with
    | .error e => .error e
    | .ok fromSide =>
      match deserialize_param_class param_value "from_type" "from_type_index" "from" with
      | .error e => .error e
      | .ok toSide => .ok (.ReadStore fromSide.1 fromSide.2 toSide.1 toSide.2)
  | some "immediate" =>
    match (param_value.get "type").bind JValue.asU64 with
    | none => .error "unable to deserialize IR inline assembly class"
    | some type_id =>
      match (param_value.get "type_index").bind JValue.asU64 with
      | none => .error "unable to deserialize IR inline assembly class"
      | some type_index =>
        match (param_value.get "value").bind JValue.asI64 with
        | none => .error "unable to deserialize IR inline assembly class"
        | some imm_value =>
          match (param_value.get "variant").bind JValue.asStr with
          | some "identifier_based" =>
            match param_value.asStr with
            | some x => .ok (.ImmediateIdentifierBased ⟨type_id, type_index⟩ x imm_value)
            | none => .ok (.ImmediateConstant ⟨type_id, type_index⟩ imm_value)
          | some "literal_based" =>
            match param_value.asU64 with
            | some x => .ok (.ImmediateLiteralBased ⟨type_id, type_index⟩ x imm_value)
            | none => .error "unable to deserialize IR inline assembly class"
          | _ => .error "unable to deserialize IR inline assembly class"
  | _ => .error "unable to deserialize IR inline assembly class"

/-- `as u8` truncation of the raw byte-range integers. -/

def rawBytes : List JValue → Except String (List Nat)
  | [] => .ok []
  | x :: rest =>
    match x.asU64 with
    | none => .error "unable to deserialize IR raw data"
    | some e =>
      match rawBytes rest with
      | .error msg => .error msg
      | .ok bs => .ok ((e % 256) :: bs)

/-- `IRDataElement::deserialize`: dispatch on the required `"class"` tag.
The `"undefined"` branch reads the optional `"count"` field, defaulting
to run-length 1 when it is absent or not an unsigned integer
(`unwrap_or(1)`). -/

def deserializeDataElement (value : JValue) : Except String IRDataElement :=
  match (value.get "class").bind JValue.asStr with
  | some "undefined" =>
    .ok (.Undefined (((value.get "count").bind JValue.asU64).getD 1))
  | some "aggregate" => .ok .Aggregate
  | some "integer" =>
    match (value.get "value").bind JValue.asI64 with
    | some v => .ok (.Integer v)
    | none => .error "unable to deserialize IR integral data value"
  | some "float32" =>
    match (value.get "value").bind JValue.asF64 with
    | some v => .ok (.Float32 v)
    | none => .error "unable to deserialize IR floating-point data value"
  | some "float64" =>
    match (value.get "value").bind JValue.asF64 with
    | some v => .ok (.Float64 v)
    | none => .error "unable to deserialize IR floating-point data value"
  | some "long_double" =>
    match (value.get "value").bind JValue.asF64 with
    | some v => .ok (.LongDouble v)
    | none => .error "unable to deserialize IR floating-point data value"
  | some "string" =>
    match (value.get "content").bind JValue.asStr with
    | some s => .ok (.String (s.toUTF8.toList.map UInt8.toNat))
    | none => .error "unable to deserialize IR string data value"
  | some "pointer" =>
    match (value.get "reference").bind JValue.asStr with
    | none => .error "unable to deserialize IR pointer data value"
    | some base =>
      match (value.get "offset").bind JValue.asI64 with
      | none => .error "unable to deserialize IR pointer data value"
      | some offset => .ok (.Pointer base offset)
  | some "string_pointer" =>
    match (value.get "string").bind JValue.asU64 with
    | none => .error "unable to deserialize IR pointer data value"
    | some base =>
      match (value.get "offset").bind JValue.asI64 with
      | none => .error "unable to deserialize IR pointer data value"
      | some offset => .ok (.StringPointer base offset)
  | some "raw" =>
    match (value.get "value").bind JValue.asArray with
    | some arr =>
      match rawBytes arr with
      | .ok bs => .ok (.Raw bs)
      | .error msg => .error msg
    | none => .error "unable to deserialize IR raw data"
  | _ => .error "unable to deserialize IR data element"

/-- Whether the alias index already holds an entry under `key`
(`HashMap::insert(...).is_some()`). -/

def hasAliasKey (idx : List (String × IRInlineAssemblyIndexedAlias)) (key : String) : Bool :=
  idx.any fun kv => kv.1 == key

/-- Insert the aliases of one entity into the alias index, failing on the
first alias that is already present (the duplicate-alias check of
`IRInlineAssembly::new`). -/

def addAliases (entity : IRInlineAssemblyIndexedAlias) (aliases : List String)
    (idx : List (String × IRInlineAssemblyIndexedAlias)) :
    Except IRError (List (String × IRInlineAssemblyIndexedAlias)) :=
  match aliases with
  | [] => .ok idx
  | a :: rest =>
    if hasAliasKey idx a then
      .error ⟨"Detected duplicating IR inline assembly aliases"⟩
    else addAliases entity rest (idx ++ [(a, entity)])

/-- The parameter loop of `IRInlineAssembly::new`: checks every map key
against the parameter's own identifier and indexes the parameter's
aliases. -/

def indexParameterList (ps : List (IRIdentifier × IRInlineAssemblyParameter))
    (idx : List (String × IRInlineAssemblyIndexedAlias)) :
    Except IRError (List (String × IRInlineAssemblyIndexedAlias)) :=
  match ps with
  | [] => .ok idx
  | kv :: rest =>
    if kv.1 ≠ kv.2.id then
      .error ⟨"IR inline assembly parameter identifier does not match the index"⟩
    else
      match addAliases (.Parameter kv.1) kv.2.aliases idx with
      | .error e => .error e
      | .ok idx2 => indexParameterList rest idx2

/-- The jump-target loop of `IRInlineAssembly::new`. -/

def indexJumpTargetList (ts : List (IRIdentifier × IRInlineAssemblyJumpTarget))
    (idx : List (String × IRInlineAssemblyIndexedAlias)) :
    Except IRError (List (String × IRInlineAssemblyIndexedAlias)) :=
  match ts with
  | [] => .ok idx
  | kv :: rest =>
    if kv.1 ≠ kv.2.id then
      .error ⟨"IR inline assembly parameter identifier does not match the index"⟩
    else
      match addAliases (.JumpTarget kv.1) kv.2.aliases idx with
      | .error e => .error e
      | .ok idx2 => indexJumpTargetList rest idx2

/-- `IRInlineAssembly::new` (`assembly.rs` lines 119–153): builds the
alias index over all parameters and jump targets, failing on a key/id
mismatch or on any repeated alias. -/

def IRInlineAssembly.new (id : IRIdentifier) (global : Bool) (template : String)
    (parameters : List (IRIdentifier × IRInlineAssemblyParameter))
    (clobbers : List String)
    (jump_targets : List (IRIdentifier × IRInlineAssemblyJumpTarget)) :
    Except IRError IRInlineAssembly :=
  match indexParameterList parameters [] with
  | .error e => .error e
  | .ok idx1 =>
    match indexJumpTargetList jump_targets idx1 with
    | .error e => .error e
    | .ok idx2 =>
      .ok ⟨id, global, template, parameters, clobbers, jump_targets, idx2⟩

/-- Sequencing of two fallible steps, as produced by Rust's `?` operator:
the first failure short-circuits. -/

def seqE {ε β : Type} : Except ε Unit → Except ε β → Except ε β
  | .error e, _ => .error e
  | .ok _, b => b

/-- `IRModule::check_type_id`: the referenced type id must exist. -/

def IRModule.check_type_id (m : IRModule) (id : IRIdentifier) : Except IRError Unit :=
  match m.types.lookup id with
  | some _ => .ok ()
  | none => .error ⟨"Provided IR type identifier does not exist in the module"⟩

/-- `IRModule::check_string_literal`: the referenced literal id must exist. -/

def IRModule.check_string_literal (m : IRModule) (id : IRIdentifier) : Except IRError Unit :=
  match m.string_literals.lookup id with
  | some _ => .ok ()
  | none => .error ⟨"Provided IR string literal identifier does not exist in the module"⟩

/-- `IRModule::check_function_declaration_id`. -/

def IRModule.check_function_declaration_id (m : IRModule) (id : IRIdentifier) : Except IRError Unit :=
  match m.function_declarations.lookup id with
  | some _ => .ok ()
  | none => .error ⟨"Provided IR function declaration identifier does not exist in the module"⟩

/-- `IRModule::check_type_ref`: the type id must exist and the index must
be strictly below the type's flattened entry count. -/

def IRModule.check_type_ref (m : IRModule) (tr : IRTypeRef) : Except IRError Unit :=
  match m.types.lookup tr.type_id with
  | some tp =>
    if tr.type_index < tp.len then .ok ()
    else .error ⟨"Provided IR type index exceeds respective IR type length"⟩
  | none => .error ⟨"Provided IR type identifier does not exist in the module"⟩

/-- The loop body of `IRModule::check_block`: the per-instruction argument
check (code references bounded by the block length inclusively, string /
type / function references resolvable; all other argument shapes pass). -/

def IRModule.check_instr (m : IRModule) (block : IRBlock) (instr : IRInstruction) : Except IRError Unit :=
  match instr.arg with
  | .codeRef coderef =>
    if coderef > block.len then
      .error ⟨"IR instruction argument code reference exceeds respective block boundaries"⟩
    else .ok ()
  | .string str_id => m.check_string_literal str_id
  | .typeRef tr => m.check_type_ref tr
  | .functionRef decl_id _ => m.check_function_declaration_id decl_id
  | _ => .ok ()

/-- Iteration of `IRModule::check_block` over the instruction list. -/

def IRModule.check_instr_list (m : IRModule) (block : IRBlock) :
    List IRInstruction → Except IRError Unit
  | [] => .ok ()
  | instr :: rest =>
    seqE (m.check_instr block instr) (m.check_instr_list block rest)

/-- `IRModule::check_block`. -/

def IRModule.check_block (m : IRModule) (block : IRBlock) : Except IRError Unit :=
  m.check_instr_list block block.code

/-- The per-parameter check of the inline-assembly loop in
`IRModule::check`: every type reference in the parameter class is
checked, and the literal id of a literal-based immediate as well. -/

def IRModule.check_param (m : IRModule) (param : IRInlineAssemblyParameter) : Except IRError Unit :=
  match param.klass with
  | .ImmediateConstant tr _ => m.check_type_ref tr
  | .ImmediateIdentifierBased tr _ _ => m.check_type_ref tr
  | .ImmediateLiteralBased tr literal_id _ =>
    seqE (m.check_type_ref tr) (m.check_string_literal literal_id)
  | .Read tr _ => m.check_type_ref tr
  | .Load tr _ => m.check_type_ref tr
  | .Store tr _ => m.check_type_ref tr
  | .LoadStore tr _ => m.check_type_ref tr
  | .ReadStore tr1 _ tr2 _ =>
    seqE (m.check_type_ref tr1) (m.check_type_ref tr2)

/-- The parameter loop of the inline-assembly check. -/

def IRModule.check_param_list (m : IRModule) :
    List (IRIdentifier × IRInlineAssemblyParameter) → Except IRError Unit
  | [] => .ok ()
  | kv :: rest =>
    seqE (m.check_param kv.2) (m.check_param_list rest)

/-- The per-jump-target check: the named function must exist and the
target offset must not exceed its body length. -/

def IRModule.check_jump_target (m : IRModule) (target : IRInlineAssemblyJumpTarget) : Except IRError Unit :=
  match m.functions.lookup target.target_function with
  | none => .error ⟨"Unable to find specified jump target function"⟩
  | some func =>
    if target.target_offset > func.body.len then
      .error ⟨"Expected IR inline assembly jump target offset exceeds respective function body length"⟩
    else .ok ()

/-- The jump-target loop of the inline-assembly check. -/

def IRModule.check_jump_target_list (m : IRModule) :
    List (IRIdentifier × IRInlineAssemblyJumpTarget) → Except IRError Unit
  | [] => .ok ()
  | kv :: rest =>
    seqE (m.check_jump_target kv.2) (m.check_jump_target_list rest)

/-- The function-declaration loop of `IRModule::check`: key equals the
declaration's identifier; params and return type ids resolve. -/

def IRModule.check_decl_list (m : IRModule) :
    List (IRIdentifier × IRFunctionDeclaration) → Except IRError Unit
  | [] => .ok ()
  | kv :: rest =>
    if kv.1 ≠ kv.2.id then
      .error ⟨"Expected IR function declaration identifier to match respective index key"⟩
    else
      seqE (m.check_type_id kv.2.params)
        (seqE (m.check_type_id kv.2.result) (m.check_decl_list rest))

/-- The function loop of `IRModule::check`: key equals the function's
name; declaration id and locals type id resolve; the body passes
`check_block`. -/

def IRModule.check_func_list (m : IRModule) :
    List (String × IRFunction) → Except IRError Unit
  | [] => .ok ()
  | kv :: rest =>
    if kv.1 ≠ kv.2.name then
      .error ⟨"Expected IR function declaration identifier to match respective index key"⟩
    else
      seqE (m.check_function_declaration_id kv.2.declaration)
        (seqE (m.check_type_id kv.2.locals)
          (seqE (m.check_block kv.2.body) (m.check_func_list rest)))

/-- The data loop of `IRModule::check`: key equals the data object's
name; its declared type id resolves. -/

def IRModule.check_data_list (m : IRModule) :
    List (String × IRData) → Except IRError Unit
  | [] => .ok ()
  | kv :: rest =>
    if kv.1 ≠ kv.2.name then
      .error ⟨"Expected IR data name to match respective index key"⟩
    else
      seqE (m.check_type_id kv.2.datatype) (m.check_data_list rest)

/-- The inline-assembly loop of `IRModule::check`: key equals the block's
identifier; every parameter and jump target of the block is checked. -/

def IRModule.check_asm_list (m : IRModule) :
    List (IRIdentifier × IRInlineAssembly) → Except IRError Unit
  | [] => .ok ()
  | kv :: rest =>
    if kv.1 ≠ kv.2.id then
      .error ⟨"Expected IR inline assembly identifier to match respective index key"⟩
    else
      seqE (m.check_param_list kv.2.parameters)
        (seqE (m.check_jump_target_list kv.2.jump_targets) (m.check_asm_list rest))

/-- `IRModule::check` (`module.rs` lines 126–203): the four table loops
in source order.  The loops over `globals`, `externals`, `types` and
`string_literals` do not exist in the source: those four tables are not
key-checked. -/

def IRModule.check (m : IRModule) : Except IRError Unit :=
  seqE (m.check_decl_list m.function_declarations)
    (seqE (m.check_func_list m.functions)
      (seqE (m.check_data_list m.data) (m.check_asm_list m.inline_asm)))

/-- `IRModule::new`: assemble the tables and run `check`; the module is
returned only when validation succeeds. -/

def IRModule.new (globals externals : List (String × IRSymbol))
    (types : List (IRIdentifier × IRType))
    (string_literals : List (IRIdentifier × IRStringLiteral))
    (function_declarations : List (IRIdentifier × IRFunctionDeclaration))
    (functions : List (String × IRFunction))
    (data : List (String × IRData))
    (inline_asm : List (IRIdentifier × IRInlineAssembly)) :
    Except IRError IRModule :=
  let m : IRModule := ⟨globals, externals, types, string_literals,
    function_declarations, functions, data, inline_asm⟩
  match m.check with
  | .error e => .error e
  | .ok _ => .ok m

/-- Whether an `Except` computation succeeded. -/

def isOkE {ε α : Type} : Except ε α → Bool
  | .ok _ => true
  | .error _ => false

/-- Modelled from the spec: a small sample of the opcode registry.  The
actual registry contents come from a declarative XML specification file
(`kefir/resources/opcodes.xml`) that is not part of these sources; the
generated codec is modelled parametrically over the registry, and this
sample (using the `ret` mnemonic of the spec's concrete scenario plus a
code-reference and an integer opcode) serves as concrete instantiation
data. -/

def demoRegistry : List OpcodeSpec :=
  [⟨"Ret", "ret", 0, .none⟩,
   ⟨"Jump", "jmp", 1, .coderef⟩,
   ⟨"PushI64", "push_i64", 2, .i64⟩]

/-- A concrete `read_store` inline-assembly parameter record. -/

def readStoreRecord : JValue :=
  .obj [("class", .str "read_store"), ("from_type", .num (.posInt 1)),
    ("from_type_index", .num (.posInt 0)), ("from", .num (.posInt 3))]

/-- An `immediate` parameter record with `variant` `identifier_based`. -/

def immediateIdentifierBasedRecord : JValue :=
  .obj [("class", .str "immediate"), ("variant", .str "identifier_based"),
    ("type", .num (.posInt 1)), ("type_index", .num (.posInt 0)),
    ("value", .num (.posInt 5))]

/-- An `immediate` parameter record with `variant` `literal_based`. -/

def immediateLiteralBasedRecord : JValue :=
  .obj [("class", .str "immediate"), ("variant", .str "literal_based"),
    ("type", .num (.posInt 1)), ("type_index", .num (.posInt 0)),
    ("value", .num (.posInt 5)), ("literal", .num (.posInt 2))]

/-- An `immediate` parameter record with no `variant` field. -/

def immediateNoVariantRecord : JValue :=
  .obj [("class", .str "immediate"), ("type", .num (.posInt 1)),
    ("type_index", .num (.posInt 0)), ("value", .num (.posInt 5))]

/-- Claim 7's property of a type reference: the referenced type exists in
the module's type table and the reference's index is strictly below that
type's flattened entry count. -/

def TypeRefInBounds (m : IRModule) (tr : IRTypeRef) : Prop :=
  match m.types.lookup tr.type_id with
  | some tp => tr.type_index < tp.len
  | none => False

/-- The type references carried by an inline-assembly parameter class. -/

def klassTypeRefs : IRInlineAssemblyParameterClass → List IRTypeRef
  | .ImmediateConstant tr _ => [tr]
  | .ImmediateIdentifierBased tr _ _ => [tr]
  | .ImmediateLiteralBased tr _ _ => [tr]
  | .Read tr _ => [tr]
  | .Load tr _ => [tr]
  | .Store tr _ => [tr]
  | .LoadStore tr _ => [tr]
  | .ReadStore tr1 _ tr2 _ => [tr1, tr2]

/-! ## A small well-formed module used to instantiate the validator claims -/

def demoType : IRType := ⟨1, [.Int32 none]⟩

def demoDecl : IRFunctionDeclaration := ⟨1, none, 1, false, 1⟩

def demoFunc : IRFunction := ⟨"f", 1, 1, ⟨[⟨0, .typeRef ⟨1, 0⟩⟩]⟩⟩

def demoData : IRData := ⟨"d", .Global, 1, []⟩

def demoParam : IRInlineAssemblyParameter := ⟨3, [], .Read ⟨1, 0⟩ 0, .None⟩

def demoAsm : IRInlineAssembly := ⟨7, false, "tpl", [(3, demoParam)], [], [], []⟩

def demoModule : IRModule :=
  ⟨[], [], [(1, demoType)], [], [(1, demoDecl)], [("f", demoFunc)],
    [("d", demoData)], [(7, demoAsm)]⟩

/-- A one-instruction block whose single instruction holds a code
reference equal to the block length. -/

def boundaryBlock : IRBlock := ⟨[⟨0, .codeRef 1⟩]⟩

/-- A function whose body holds an out-of-bounds code reference (offset 2
in a block of length 1). -/

def overflowFunc : IRFunction := ⟨"g", 1, 1, ⟨[⟨0, .codeRef 2⟩]⟩⟩

/-- The alias lists of all parameters followed by those of all jump
targets of one inline-assembly block. -/

def aliasLists (ps : List (IRIdentifier × IRInlineAssemblyParameter))
    (ts : List (IRIdentifier × IRInlineAssemblyJumpTarget)) : List (List String) :=
  (ps.map fun kv => kv.2.aliases) ++ (ts.map fun kv => kv.2.aliases)

/-- A parameter and a jump target sharing the alias `"x"`. -/

def dupAliasParams : List (IRIdentifier × IRInlineAssemblyParameter) :=
  [(0, ⟨0, ["x"], .Read ⟨1, 0⟩ 0, .Register⟩)]

def dupAliasTargets : List (IRIdentifier × IRInlineAssemblyJumpTarget) :=
  [(1, ⟨1, ["x"], "f", 0⟩)]

/-! ## The generic self-describing record tree (`serde_json::Value`) -/

/-! ## The IR data model (`src/okroshka/ir/*.rs`) -/

/-! ## Instruction payload decoders (`src/okroshka/loader/ir.rs`) -/

/-! ## The generated instruction codec (`build.rs`)

`build.rs` reads the declarative opcode table (an XML resource outside
the sources) and generates, for each registered opcode, one enum variant,
a `mnemonic()` arm, a `code()` arm, an `argument()` arm and one decoder
match arm.  The embedding is parametric over the registry contents. -/

/-! ## Inline-assembly parameter decoding (`loader/ir.rs`,
`IRInlineAssembly::deserialize_param_class` and the `"class"` dispatch
inside `IRInlineAssembly::deserialize`) -/

/-! ## Data element decoding (`IRDataElement::deserialize`, `loader/ir.rs`) -/

/-! ## Inline-assembly construction (`IRInlineAssembly::new`, `assembly.rs`) -/

/-! ## The module validator (`IRModule::check`, `module.rs`) -/

theorem seqE_ok_iff {ε β : Type} (a : Except ε Unit) (b : Except ε β) (x : β) :
    seqE a b = .ok x ↔ a = .ok () ∧ b = .ok x := by
  cases a with
  | error e => simp [seqE]
  | ok u => cases u; simp [seqE]

/-! ## Auxiliary definitions for the theorems -/

/-! ## C10 — `undefined` data elements default to run-length 1 -/

/-- C10: for every data-element record with class `"undefined"` whose
`"count"` field is absent or not an unsigned integer, decode does not
fail: it produces an `Undefined` element with run-length count 1. -/

theorem claim10_undefined_count_default (v : JValue)
    (hclass : (v.get "class").bind JValue.asStr = some "undefined")
    (hcount : (v.get "count").bind JValue.asU64 = none) :
    deserializeDataElement v = .ok (.Undefined 1) := by
  unfold deserializeDataElement
  rw [hclass, hcount]
  rfl

/-- Witness for C10: a record with class `"undefined"` and no `"count"`
field decodes to `Undefined 1`. -/

theorem claim10_witness :
    deserializeDataElement (JValue.obj [("class", .str "undefined")]) = .ok (.Undefined 1) :=
  claim10_undefined_count_default (JValue.obj [("class", .str "undefined")]) rfl rfl

/-! ## C5 — the u32-pair payload shape -/

/-- Counterexample to C5: the element `4294967296 = 2^32` does not fit in
32 bits, yet `deserialize_instr_u32` succeeds, truncating it (`as u32`)
to `0` instead of failing, so the decoded pair does not equal the input
pair. -/

theorem claim5_u32_pair_truncation_counterexample :
    deserialize_instr_u32
      (JValue.obj [("arg", JValue.arr [.num (.posInt 4294967296), .num (.posInt 7)])])
      = .ok (0, 7)
    ∧ (0 : Nat) ≠ 4294967296 := by
  exact ⟨rfl, by decide⟩

/-- C5 (amended): decoding the u32-pair payload requires `"arg"` to be a
2-element array of unsigned integers; each element is truncated to its
low 32 bits (an element exceeding 32 bits is truncated, not rejected);
the decoded pair equals the two input values exactly whenever each fits
in 32 bits; and each decoded component always fits in 32 bits. -/

theorem claim5_u32_pair_decode_amended :
    (∀ (v : JValue) (x y : Nat),
      v.get "arg" = some (.arr [.num (.posInt x), .num (.posInt y)]) →
      deserialize_instr_u32 v = .ok (x % 4294967296, y % 4294967296))
    ∧ (∀ (v : JValue) (x y : Nat),
      v.get "arg" = some (.arr [.num (.posInt x), .num (.posInt y)]) →
      x < 4294967296 → y < 4294967296 →
      deserialize_instr_u32 v = .ok (x, y))
    ∧ (∀ (v : JValue) (p : Nat × Nat),
      deserialize_instr_u32 v = .ok p →
      p.1 < 4294967296 ∧ p.2 < 4294967296) := by
  refine ⟨?_, ?_, ?_⟩
  · intro v x y h
    unfold deserialize_instr_u32
    rw [h]
    rfl
  · intro v x y h hx hy
    unfold deserialize_instr_u32
    rw [h]
    show Except.ok (x % 4294967296, y % 4294967296) = Except.ok (x, y)
    rw [Nat.mod_eq_of_lt hx, Nat.mod_eq_of_lt hy]
  · intro v p h
    unfold deserialize_instr_u32 at h
    cases hg : v.get "arg" with
    | none => rw [hg] at h; exact Except.noConfusion h
    | some w =>
      rw [hg] at h
      cases w with
      | arr xs =>
        match xs, h with
        | [], h => exact Except.noConfusion h
        | [_], h => exact Except.noConfusion h
        | _ :: _ :: _ :: _, h => exact Except.noConfusion h
        | [a, b], h =>
          have h2 : (match a.asU64, b.asU64 with
              | some x, some y => Except.ok (x % 4294967296, y % 4294967296)
              | _, _ =>
                (Except.error "unable to deserialize IR instruction argument" :
                  Except String (Nat × Nat))) = Except.ok p := h
          cases ha : a.asU64 with
          | none => rw [ha] at h2; exact Except.noConfusion h2
          | some x =>
            cases hb : b.asU64 with
            | none => rw [ha, hb] at h2; exact Except.noConfusion h2
            | some y =>
              rw [ha, hb] at h2
              injection h2 with h2
              subst h2
              exact ⟨Nat.mod_lt _ (by decide), Nat.mod_lt _ (by decide)⟩
      | null => exact Except.noConfusion h
      | bool _ => exact Except.noConfusion h
      | num _ => exact Except.noConfusion h
      | str _ => exact Except.noConfusion h
      | obj _ => exact Except.noConfusion h

/-- Witness for C5: both positive directions at a fitting input, and the
32-bit output bound at the truncating input of the counterexample. -/

theorem claim5_witness :
    deserialize_instr_u32 (JValue.obj [("arg", JValue.arr [.num (.posInt 5), .num (.posInt 7)])])
      = .ok (5 % 4294967296, 7 % 4294967296)
    ∧ deserialize_instr_u32 (JValue.obj [("arg", JValue.arr [.num (.posInt 5), .num (.posInt 7)])])
      = .ok (5, 7)
    ∧ ((0 : Nat), (7 : Nat)).1 < 4294967296 ∧ ((0 : Nat), (7 : Nat)).2 < 4294967296 :=
  ⟨claim5_u32_pair_decode_amended.1
     (JValue.obj [("arg", JValue.arr [.num (.posInt 5), .num (.posInt 7)])]) 5 7 rfl,
   claim5_u32_pair_decode_amended.2.1
     (JValue.obj [("arg", JValue.arr [.num (.posInt 5), .num (.posInt 7)])]) 5 7 rfl
     (by decide) (by decide),
   claim5_u32_pair_decode_amended.2.2
     (JValue.obj [("arg", JValue.arr [.num (.posInt 4294967296), .num (.posInt 7)])])
     (0, 7) rfl⟩

/-! ## C6 — the ReadStore parameter decodes both sides from the same fields -/

/-- C6: whenever a `read_store` inline-assembly parameter record decodes
successfully, the to-side type reference and slot index equal the
from-side ones, because both sides are read from the same
`from_type`/`from_type_index`/`from` fields. -/

theorem claim6_read_store_sides_equal (v : JValue) (tr1 : IRTypeRef) (i1 : Nat)
    (tr2 : IRTypeRef) (i2 : Nat)
    (h : deserializeParamKlass v = .ok (.ReadStore tr1 i1 tr2 i2)) :
    tr1 = tr2 ∧ i1 = i2 := by
  unfold deserializeParamKlass at h
  split at h
  all_goals try exact Except.noConfusion h
  case h_5 =>
    -- the "read_store" branch: both sides are the same computation
    cases hd : deserialize_param_class v "from_type" "from_type_index" "from" with
    | error e => rw [hd] at h; exact Except.noConfusion h
    | ok p =>
      rw [hd] at h
      injection h with h
      injection h with h1 h2 h3 h4
      subst h1; subst h2; subst h3; subst h4
      exact ⟨rfl, rfl⟩
  all_goals repeat' split at h
  all_goals try exact Except.noConfusion h
  all_goals (injection h with h; exact IRInlineAssemblyParameterClass.noConfusion h)

/-- Witness for C6: a concrete `read_store` record decodes with equal
from- and to-sides. -/

theorem claim6_witness :
    deserializeParamKlass readStoreRecord = .ok (.ReadStore ⟨1, 0⟩ 3 ⟨1, 0⟩ 3)
    ∧ (⟨1, 0⟩ : IRTypeRef) = ⟨1, 0⟩ ∧ (3 : Nat) = 3 :=
  ⟨rfl, claim6_read_store_sides_equal readStoreRecord ⟨1, 0⟩ 3 ⟨1, 0⟩ 3 rfl⟩

/-! ## C1 — unknown opcode mnemonics abort instead of returning an error -/

/-- For any registry not containing the requested mnemonic, the generated
decoder reaches the fall-through arm, which calls `Result::unwrap` on a
freshly built `Err` and therefore aborts the process instead of
returning the error. -/

theorem deserializeInstrArms_unknown (value : JValue) (sym : String) :
    ∀ (reg : List OpcodeSpec) (idx : Nat), (∀ op ∈ reg, op.mnemonic ≠ sym) →
    deserializeInstrArms value sym reg idx = .fatal "Unable to deserialize instruction" := by
  intro reg
  induction reg with
  | nil => intro idx _; rfl
  | cons op rest ih =>
    intro idx hne
    unfold deserializeInstrArms
    rw [if_neg (hne op (List.mem_cons_self op rest))]
    exact ih (idx + 1) fun op2 h2 => hne op2 (List.mem_cons_of_mem op h2)

/-- C1 (refuted): decoding an instruction record whose `"opcode"` mnemonic
(`"bogus"`) is not registered does not return a decode error: the
generated fall-through arm
`Err(D::Error::custom(...)).unwrap()` (`build.rs` line 199) panics, here
modelled by the `fatal` outcome. -/

theorem claim1_unknown_opcode_decode_aborts :
    deserialize_instruction demoRegistry "bogus" (JValue.obj [("opcode", .str "bogus")])
      = .fatal "Unable to deserialize instruction" :=
  deserializeInstrArms_unknown (JValue.obj [("opcode", .str "bogus")]) "bogus"
    demoRegistry 0 (by decide)

/-! ## C9 — decode/mnemonic round trip -/

/-- Inversion of the generated decoder's success: the decoded instruction's
tag is the absolute registry index of a row whose mnemonic is the
requested symbol. -/

theorem deserializeInstrArms_ok_tag (value : JValue) (sym : String) :
    ∀ (reg : List OpcodeSpec) (idx : Nat) (i : IRInstruction),
    deserializeInstrArms value sym reg idx = .ok i →
    ∃ (k : Nat) (op : OpcodeSpec), reg[k]? = some op ∧ op.mnemonic = sym ∧ i.tag = idx + k := by
  intro reg
  induction reg with
  | nil => intro idx i h; exact DecodeOutcome.noConfusion h
  | cons op rest ih =>
    intro idx i h
    unfold deserializeInstrArms at h
    by_cases hm : op.mnemonic = sym
    · rw [if_pos hm] at h
      cases hp : decodePayload op.klass value with
      | error e => rw [hp] at h; exact DecodeOutcome.noConfusion h
      | ok arg =>
        rw [hp] at h
        injection h with h
        refine ⟨0, op, by simp, hm, ?_⟩
        rw [← h]
        simp
    · rw [if_neg hm] at h
      obtain ⟨k, op2, hk, hm2, ht⟩ := ih (idx + 1) i h
      refine ⟨k + 1, op2, ?_, hm2, ?_⟩
      · simpa using hk
      · omega

/-- C9: for every registry, decoding a record through the registry under
mnemonic `m` and reading the decoded instruction's mnemonic back yields
`m` again. -/

theorem claim9_mnemonic_roundtrip (reg : List OpcodeSpec) (m : String) (v : JValue)
    (i : IRInstruction) (h : deserialize_instruction reg m v = .ok i) :
    IRInstruction.mnemonic reg i = some m := by
  obtain ⟨k, op, hk, hm, ht⟩ := deserializeInstrArms_ok_tag v m reg 0 i h
  unfold IRInstruction.mnemonic
  rw [ht, Nat.zero_add, hk]
  simp [hm]

/-- Witness for C9: decoding the `ret` record through the sample registry
round-trips the mnemonic. -/

theorem claim9_witness :
    deserialize_instruction demoRegistry "ret" (JValue.obj []) = .ok ⟨0, .none⟩
    ∧ IRInstruction.mnemonic demoRegistry ⟨0, .none⟩ = some "ret" :=
  ⟨rfl, claim9_mnemonic_roundtrip demoRegistry "ret" (JValue.obj []) ⟨0, .none⟩ rfl⟩

/-! ## C4 — the `immediate` parameter's `variant` dispatch -/

/-- C4 (refuted on all three branches): the source dispatches the
`immediate` class on `"variant"`, but inside the `identifier_based` and
`literal_based` arms it matches `param_value.as_str()` resp.
`param_value.as_u64()` applied to the *whole parameter record* — which is
an object, so both yield `None`.  Hence `identifier_based` always
produces `ImmediateConstant` (never `ImmediateIdentifierBased`),
`literal_based` always fails, and an absent (or other) variant also
fails instead of producing `ImmediateConstant`. -/

theorem claim4_immediate_variant_dispatch_behavior :
    deserializeParamKlass immediateIdentifierBasedRecord
      = .ok (.ImmediateConstant ⟨1, 0⟩ 5)
    ∧ deserializeParamKlass immediateLiteralBasedRecord
      = .error "unable to deserialize IR inline assembly class"
    ∧ deserializeParamKlass immediateNoVariantRecord
      = .error "unable to deserialize IR inline assembly class" :=
  ⟨rfl, rfl, rfl⟩

/-! ## Inversion lemmas for the validator loops -/

theorem check_instr_list_ok {m : IRModule} {b : IRBlock} :
    ∀ {l : List IRInstruction}, m.check_instr_list b l = .ok () →
    ∀ i ∈ l, m.check_instr b i = .ok () := by
  intro l
  induction l with
  | nil => intro _ i hi; cases hi
  | cons a rest ih =>
    intro h i hi
    unfold IRModule.check_instr_list at h
    rw [seqE_ok_iff] at h
    cases hi with
    | head => exact h.1
    | tail _ hm => exact ih h.2 i hm

theorem check_decl_list_ok {m : IRModule} :
    ∀ {l : List (IRIdentifier × IRFunctionDeclaration)}, m.check_decl_list l = .ok () →
    ∀ kv ∈ l, kv.1 = kv.2.id ∧ m.check_type_id kv.2.params = .ok () ∧
      m.check_type_id kv.2.result = .ok () := by
  intro l
  induction l with
  | nil => intro _ kv hkv; cases hkv
  | cons a rest ih =>
    intro h kv hkv
    unfold IRModule.check_decl_list at h
    split at h
    · exact Except.noConfusion h
    · rename_i hkey
      rw [seqE_ok_iff] at h
      obtain ⟨h1, h⟩ := h
      rw [seqE_ok_iff] at h
      obtain ⟨h2, h⟩ := h
      cases hkv with
      | head => exact ⟨not_not.mp hkey, h1, h2⟩
      | tail _ hm => exact ih h kv hm

theorem check_func_list_ok {m : IRModule} :
    ∀ {l : List (String × IRFunction)}, m.check_func_list l = .ok () →
    ∀ kv ∈ l, kv.1 = kv.2.name ∧ m.check_function_declaration_id kv.2.declaration = .ok () ∧
      m.check_type_id kv.2.locals = .ok () ∧ m.check_block kv.2.body = .ok () := by
  intro l
  induction l with
  | nil => intro _ kv hkv; cases hkv
  | cons a rest ih =>
    intro h kv hkv
    unfold IRModule.check_func_list at h
    split at h
    · exact Except.noConfusion h
    · rename_i hkey
      rw [seqE_ok_iff] at h
      obtain ⟨h1, h⟩ := h
      rw [seqE_ok_iff] at h
      obtain ⟨h2, h⟩ := h
      rw [seqE_ok_iff] at h
      obtain ⟨h3, h⟩ := h
      cases hkv with
      | head => exact ⟨not_not.mp hkey, h1, h2, h3⟩
      | tail _ hm => exact ih h kv hm

theorem check_data_list_ok {m : IRModule} :
    ∀ {l : List (String × IRData)}, m.check_data_list l = .ok () →
    ∀ kv ∈ l, kv.1 = kv.2.name ∧ m.check_type_id kv.2.datatype = .ok () := by
  intro l
  induction l with
  | nil => intro _ kv hkv; cases hkv
  | cons a rest ih =>
    intro h kv hkv
    unfold IRModule.check_data_list at h
    split at h
    · exact Except.noConfusion h
    · rename_i hkey
      rw [seqE_ok_iff] at h
      obtain ⟨h1, h⟩ := h
      cases hkv with
      | head => exact ⟨not_not.mp hkey, h1⟩
      | tail _ hm => exact ih h kv hm

theorem check_param_list_ok {m : IRModule} :
    ∀ {l : List (IRIdentifier × IRInlineAssemblyParameter)}, m.check_param_list l = .ok () →
    ∀ kv ∈ l, m.check_param kv.2 = .ok () := by
  intro l
  induction l with
  | nil => intro _ kv hkv; cases hkv
  | cons a rest ih =>
    intro h kv hkv
    unfold IRModule.check_param_list at h
    rw [seqE_ok_iff] at h
    cases hkv with
    | head => exact h.1
    | tail _ hm => exact ih h.2 kv hm

theorem check_asm_list_ok {m : IRModule} :
    ∀ {l : List (IRIdentifier × IRInlineAssembly)}, m.check_asm_list l = .ok () →
    ∀ kv ∈ l, kv.1 = kv.2.id ∧ m.check_param_list kv.2.parameters = .ok () ∧
      m.check_jump_target_list kv.2.jump_targets = .ok () := by
  intro l
  induction l with
  | nil => intro _ kv hkv; cases hkv
  | cons a rest ih =>
    intro h kv hkv
    unfold IRModule.check_asm_list at h
    split at h
    · exact Except.noConfusion h
    · rename_i hkey
      rw [seqE_ok_iff] at h
      obtain ⟨h1, h⟩ := h
      rw [seqE_ok_iff] at h
      obtain ⟨h2, h⟩ := h
      cases hkv with
      | head => exact ⟨not_not.mp hkey, h1, h2⟩
      | tail _ hm => exact ih h kv hm

theorem check_ok {m : IRModule} (h : m.check = .ok ()) :
    m.check_decl_list m.function_declarations = .ok () ∧
    m.check_func_list m.functions = .ok () ∧
    m.check_data_list m.data = .ok () ∧
    m.check_asm_list m.inline_asm = .ok () := by
  unfold IRModule.check at h
  rw [seqE_ok_iff] at h
  obtain ⟨h1, h⟩ := h
  rw [seqE_ok_iff] at h
  obtain ⟨h2, h⟩ := h
  rw [seqE_ok_iff] at h
  exact ⟨h1, h2, h.1, h.2⟩

theorem new_ok {g e : List (String × IRSymbol)} {t : List (IRIdentifier × IRType)}
    {s : List (IRIdentifier × IRStringLiteral)}
    {fd : List (IRIdentifier × IRFunctionDeclaration)} {fn : List (String × IRFunction)}
    {d : List (String × IRData)} {ia : List (IRIdentifier × IRInlineAssembly)}
    {m : IRModule} (h : IRModule.new g e t s fd fn d ia = .ok m) :
    m = ⟨g, e, t, s, fd, fn, d, ia⟩ ∧ m.check = .ok () := by
  unfold IRModule.new at h
  have h2 : (match (IRModule.mk g e t s fd fn d ia).check with
      | .error e0 => (.error e0 : Except IRError IRModule)
      | .ok _ => .ok (IRModule.mk g e t s fd fn d ia)) = .ok m := h
  cases hc : (IRModule.mk g e t s fd fn d ia).check with
  | error e0 => rw [hc] at h2; exact Except.noConfusion h2
  | ok u =>
    cases u
    rw [hc] at h2
    injection h2 with h2
    subst h2
    exact ⟨rfl, hc⟩

theorem check_type_ref_ok_bounds {m : IRModule} {tr : IRTypeRef}
    (h : m.check_type_ref tr = .ok ()) : TypeRefInBounds m tr := by
  unfold IRModule.check_type_ref at h
  unfold TypeRefInBounds
  cases hl : m.types.lookup tr.type_id with
  | none => rw [hl] at h; exact Except.noConfusion h
  | some tp =>
    rw [hl] at h
    split at h
    · rename_i val heq
      injection heq with heq
      subst heq
      split at h
      · assumption
      · exact Except.noConfusion h
    · rename_i heq
      exact Option.noConfusion heq

theorem check_param_ok_typerefs {m : IRModule} {p : IRInlineAssemblyParameter}
    (h : m.check_param p = .ok ()) :
    ∀ tr ∈ klassTypeRefs p.klass, m.check_type_ref tr = .ok () := by
  intro tr htr
  unfold IRModule.check_param at h
  unfold klassTypeRefs at htr
  cases hk : p.klass with
  | ImmediateConstant tr1 v =>
    rw [hk] at h htr; simp at htr; subst htr; exact h
  | ImmediateIdentifierBased tr1 s v =>
    rw [hk] at h htr; simp at htr; subst htr; exact h
  | ImmediateLiteralBased tr1 lid v =>
    rw [hk] at h htr
    have h2 : seqE (m.check_type_ref tr1) (m.check_string_literal lid) = .ok () := h
    rw [seqE_ok_iff] at h2
    simp at htr; subst htr; exact h2.1
  | Read tr1 i => rw [hk] at h htr; simp at htr; subst htr; exact h
  | Load tr1 i => rw [hk] at h htr; simp at htr; subst htr; exact h
  | Store tr1 i => rw [hk] at h htr; simp at htr; subst htr; exact h
  | LoadStore tr1 i => rw [hk] at h htr; simp at htr; subst htr; exact h
  | ReadStore tr1 i1 tr2 i2 =>
    rw [hk] at h htr
    have h2 : seqE (m.check_type_ref tr1) (m.check_type_ref tr2) = .ok () := h
    rw [seqE_ok_iff] at h2
    simp at htr
    cases htr with
    | inl h1 => subst h1; exact h2.1
    | inr h1 => subst h1; exact h2.2

/-! ## C2 — which tables are key-checked by the validating constructor -/

/-- Counterexample to C2: `IRModule::new` succeeds on a module whose
`types` table stores under key `0` a type whose own identifier is `1`;
the constructor never compares the keys of the `globals`, `externals`,
`types` or `string_literals` tables with the stored entities. -/

theorem claim2_key_mismatch_counterexample :
    IRModule.new [] [] [(0, ⟨1, []⟩)] [] [] [] [] []
      = .ok ⟨[], [], [(0, ⟨1, []⟩)], [], [], [], [], []⟩
    ∧ (([((0 : IRIdentifier), (⟨1, []⟩ : IRType))].any fun kv => kv.1 != kv.2.id) = true) :=
  ⟨rfl, by decide⟩

/-- C2 (amended): for every module returned by `IRModule::new`, the map
key equals the stored entity's own identifier or name in the four tables
the validator actually checks — function declarations, functions, data
objects and inline-assembly blocks; the `globals`, `externals`, `types`
and `string_literals` keys are not checked. -/

theorem claim2_checked_tables_keys_match :
    (∀ g e t s fd fn d ia (m : IRModule) kv, IRModule.new g e t s fd fn d ia = .ok m →
      kv ∈ m.function_declarations → kv.1 = kv.2.id)
    ∧ (∀ g e t s fd fn d ia (m : IRModule) kv, IRModule.new g e t s fd fn d ia = .ok m →
      kv ∈ m.functions → kv.1 = kv.2.name)
    ∧ (∀ g e t s fd fn d ia (m : IRModule) kv, IRModule.new g e t s fd fn d ia = .ok m →
      kv ∈ m.data → kv.1 = kv.2.name)
    ∧ (∀ g e t s fd fn d ia (m : IRModule) kv, IRModule.new g e t s fd fn d ia = .ok m →
      kv ∈ m.inline_asm → kv.1 = kv.2.id) := by
  refine ⟨?_, ?_, ?_, ?_⟩ <;> intro g e t s fd fn d ia m kv hnew hkv
  · exact (check_decl_list_ok (check_ok (new_ok hnew).2).1 kv hkv).1
  · exact (check_func_list_ok (check_ok (new_ok hnew).2).2.1 kv hkv).1
  · exact (check_data_list_ok (check_ok (new_ok hnew).2).2.2.1 kv hkv).1
  · exact (check_asm_list_ok (check_ok (new_ok hnew).2).2.2.2 kv hkv).1

/-- Witness for C2 (amended): the demo module instantiates all four
checked tables. -/

theorem claim2_witness :
    ((1 : IRIdentifier), demoDecl).1 = ((1 : IRIdentifier), demoDecl).2.id
    ∧ ("f", demoFunc).1 = ("f", demoFunc).2.name
    ∧ ("d", demoData).1 = ("d", demoData).2.name
    ∧ ((7 : IRIdentifier), demoAsm).1 = ((7 : IRIdentifier), demoAsm).2.id :=
  ⟨claim2_checked_tables_keys_match.1 [] [] [(1, demoType)] [] [(1, demoDecl)]
     [("f", demoFunc)] [("d", demoData)] [(7, demoAsm)] demoModule (1, demoDecl)
     rfl (by decide),
   claim2_checked_tables_keys_match.2.1 [] [] [(1, demoType)] [] [(1, demoDecl)]
     [("f", demoFunc)] [("d", demoData)] [(7, demoAsm)] demoModule ("f", demoFunc)
     rfl (by decide),
   claim2_checked_tables_keys_match.2.2.1 [] [] [(1, demoType)] [] [(1, demoDecl)]
     [("f", demoFunc)] [("d", demoData)] [(7, demoAsm)] demoModule ("d", demoData)
     rfl (by decide),
   claim2_checked_tables_keys_match.2.2.2 [] [] [(1, demoType)] [] [(1, demoDecl)]
     [("f", demoFunc)] [("d", demoData)] [(7, demoAsm)] demoModule (7, demoAsm)
     rfl (by decide)⟩

/-! ## C3 — the code-reference boundary law -/

/-- C3: the per-instruction validator check accepts a code reference whose
offset equals the length of the containing block (one-past-the-end), and
module construction fails whenever some function body holds a code
reference strictly greater than its block's length. -/

theorem claim3_coderef_boundary :
    (∀ (m : IRModule) (b : IRBlock) (instr : IRInstruction) (c : Nat),
      instr.arg = .codeRef c → c = b.len → m.check_instr b instr = .ok ())
    ∧ (∀ g e t s fd fn d ia (kv : String × IRFunction) (instr : IRInstruction) (c : Nat),
      kv ∈ fn → instr ∈ kv.2.body.code → instr.arg = .codeRef c → c > kv.2.body.len →
      isOkE (IRModule.new g e t s fd fn d ia) = false) := by
  constructor
  · intro m b instr c harg hc
    unfold IRModule.check_instr
    rw [harg]
    show (if c > b.len then
        (.error ⟨"IR instruction argument code reference exceeds respective block boundaries"⟩ :
          Except IRError Unit)
      else .ok ()) = .ok ()
    rw [if_neg (by omega)]
  · intro g e t s fd fn d ia kv instr c hkv hinstr harg hgt
    cases hres : IRModule.new g e t s fd fn d ia with
    | error e0 => rfl
    | ok m =>
      exfalso
      obtain ⟨hm, hch⟩ := new_ok hres
      have hfn : kv ∈ m.functions := by rw [hm]; exact hkv
      have h4 := (check_func_list_ok (check_ok hch).2.1 kv hfn).2.2.2
      unfold IRModule.check_block at h4
      have h5 := check_instr_list_ok h4 instr hinstr
      unfold IRModule.check_instr at h5
      rw [harg] at h5
      have h6 : (if c > kv.2.body.len then
          (.error ⟨"IR instruction argument code reference exceeds respective block boundaries"⟩ :
            Except IRError Unit)
        else .ok ()) = .ok () := h5
      rw [if_pos hgt] at h6
      exact Except.noConfusion h6

/-- Witness for C3: the boundary offset is accepted; the strictly greater
offset makes construction fail. -/

theorem claim3_witness :
    demoModule.check_instr boundaryBlock ⟨0, .codeRef 1⟩ = .ok ()
    ∧ isOkE (IRModule.new [] [] [] [] [] [("g", overflowFunc)] [] []) = false :=
  ⟨claim3_coderef_boundary.1 demoModule boundaryBlock ⟨0, .codeRef 1⟩ 1 rfl rfl,
   claim3_coderef_boundary.2 [] [] [] [] [] [("g", overflowFunc)] [] []
     ("g", overflowFunc) ⟨0, .codeRef 2⟩ 2 (by decide) (by decide) rfl (by decide)⟩

/-! ## C7 — type-reference index bounds -/

/-- C7: module construction succeeds only if every type reference in an
instruction argument or an inline-assembly parameter is strictly within
the flattened entry count of the referenced type, and `check_type_ref`
rejects any reference whose index equals or exceeds that count. -/

theorem claim7_type_ref_bounds :
    (∀ g e t s fd fn d ia (m : IRModule) (kv : String × IRFunction)
        (instr : IRInstruction) (tr : IRTypeRef),
      IRModule.new g e t s fd fn d ia = .ok m → kv ∈ m.functions →
      instr ∈ kv.2.body.code → instr.arg = .typeRef tr → TypeRefInBounds m tr)
    ∧ (∀ g e t s fd fn d ia (m : IRModule) (kv : IRIdentifier × IRInlineAssembly)
        (pkv : IRIdentifier × IRInlineAssemblyParameter) (tr : IRTypeRef),
      IRModule.new g e t s fd fn d ia = .ok m → kv ∈ m.inline_asm →
      pkv ∈ kv.2.parameters → tr ∈ klassTypeRefs pkv.2.klass → TypeRefInBounds m tr)
    ∧ (∀ (m : IRModule) (tr : IRTypeRef) (tp : IRType),
      m.types.lookup tr.type_id = some tp → tp.len ≤ tr.type_index →
      m.check_type_ref tr
        = .error ⟨"Provided IR type index exceeds respective IR type length"⟩) := by
  refine ⟨?_, ?_, ?_⟩
  · intro g e t s fd fn d ia m kv instr tr hnew hkv hinstr harg
    obtain ⟨_, hch⟩ := new_ok hnew
    have h4 := (check_func_list_ok (check_ok hch).2.1 kv hkv).2.2.2
    unfold IRModule.check_block at h4
    have h5 := check_instr_list_ok h4 instr hinstr
    unfold IRModule.check_instr at h5
    rw [harg] at h5
    exact check_type_ref_ok_bounds h5
  · intro g e t s fd fn d ia m kv pkv tr hnew hkv hpkv htr
    obtain ⟨_, hch⟩ := new_ok hnew
    have h4 := (check_asm_list_ok (check_ok hch).2.2.2 kv hkv).2.1
    have h5 := check_param_list_ok h4 pkv hpkv
    exact check_type_ref_ok_bounds (check_param_ok_typerefs h5 tr htr)
  · intro m tr tp hl hle
    unfold IRModule.check_type_ref
    rw [hl]
    show (if tr.type_index < tp.len then (.ok () : Except IRError Unit)
      else .error ⟨"Provided IR type index exceeds respective IR type length"⟩)
      = .error ⟨"Provided IR type index exceeds respective IR type length"⟩
    rw [if_neg (Nat.not_lt.mpr hle)]

/-- Witness for C7: instruction-argument and parameter type references of
the demo module are in bounds; an index `5` into the one-entry demo type
is rejected. -/

theorem claim7_witness :
    TypeRefInBounds demoModule ⟨1, 0⟩
    ∧ TypeRefInBounds demoModule ⟨1, 0⟩
    ∧ demoModule.check_type_ref ⟨1, 5⟩
      = .error ⟨"Provided IR type index exceeds respective IR type length"⟩ :=
  ⟨claim7_type_ref_bounds.1 [] [] [(1, demoType)] [] [(1, demoDecl)] [("f", demoFunc)]
     [("d", demoData)] [(7, demoAsm)] demoModule ("f", demoFunc)
     ⟨0, .typeRef ⟨1, 0⟩⟩ ⟨1, 0⟩ rfl (by decide) (by decide) rfl,
   claim7_type_ref_bounds.2.1 [] [] [(1, demoType)] [] [(1, demoDecl)] [("f", demoFunc)]
     [("d", demoData)] [(7, demoAsm)] demoModule (7, demoAsm) (3, demoParam) ⟨1, 0⟩
     rfl (by decide) (by decide) (by decide),
   claim7_type_ref_bounds.2.2 demoModule ⟨1, 5⟩ demoType rfl (by decide)⟩

/-! ## C8 — global alias uniqueness within an inline-assembly block -/

theorem hasAliasKey_false_not_mem {idx : List (String × IRInlineAssemblyIndexedAlias)}
    {a : String} (h : ¬ hasAliasKey idx a = true) : a ∉ idx.map Prod.fst := by
  intro hma
  apply h
  unfold hasAliasKey
  rw [List.any_eq_true]
  obtain ⟨kv, hkv, hfst⟩ := List.mem_map.mp hma
  exact ⟨kv, hkv, beq_iff_eq.mpr hfst⟩

theorem addAliases_ok {ent : IRInlineAssemblyIndexedAlias} :
    ∀ {strs : List String} {idx idx2 : List (String × IRInlineAssemblyIndexedAlias)},
    addAliases ent strs idx = .ok idx2 →
    idx2.map Prod.fst = idx.map Prod.fst ++ strs ∧
    ((idx.map Prod.fst).Nodup → (idx2.map Prod.fst).Nodup) := by
  intro strs
  induction strs with
  | nil =>
    intro idx idx2 h
    unfold addAliases at h
    injection h with h
    subst h
    simp
  | cons a rest ih =>
    intro idx idx2 h
    unfold addAliases at h
    split at h
    · exact Except.noConfusion h
    · rename_i hkey
      obtain ⟨h1, h2⟩ := ih h
      have hmap : (idx ++ [(a, ent)]).map Prod.fst = idx.map Prod.fst ++ [a] := by simp
      constructor
      · rw [h1, hmap]
        simp [List.append_assoc]
      · intro hnd
        apply h2
        rw [hmap]
        refine List.Nodup.append hnd (by simp) ?_
        intro x hx hx2
        rw [List.mem_singleton] at hx2
        subst hx2
        exact hasAliasKey_false_not_mem hkey hx

theorem indexParameterList_ok :
    ∀ {ps : List (IRIdentifier × IRInlineAssemblyParameter)}
      {idx idx2 : List (String × IRInlineAssemblyIndexedAlias)},
    indexParameterList ps idx = .ok idx2 →
    idx2.map Prod.fst = idx.map Prod.fst ++ (ps.map fun kv => kv.2.aliases).flatten ∧
    ((idx.map Prod.fst).Nodup → (idx2.map Prod.fst).Nodup) := by
  intro ps
  induction ps with
  | nil =>
    intro idx idx2 h
    unfold indexParameterList at h
    injection h with h
    subst h
    simp
  | cons kv rest ih =>
    intro idx idx2 h
    unfold indexParameterList at h
    split at h
    · exact Except.noConfusion h
    · cases ha : addAliases (.Parameter kv.1) kv.2.aliases idx with
      | error e => rw [ha] at h; exact Except.noConfusion h
      | ok idx1 =>
        rw [ha] at h
        obtain ⟨a1, a2⟩ := addAliases_ok ha
        obtain ⟨h1, h2⟩ := ih h
        constructor
        · rw [h1, a1]
          simp [List.append_assoc]
        · intro hnd
          exact h2 (a2 hnd)

theorem indexJumpTargetList_ok :
    ∀ {ts : List (IRIdentifier × IRInlineAssemblyJumpTarget)}
      {idx idx2 : List (String × IRInlineAssemblyIndexedAlias)},
    indexJumpTargetList ts idx = .ok idx2 →
    idx2.map Prod.fst = idx.map Prod.fst ++ (ts.map fun kv => kv.2.aliases).flatten ∧
    ((idx.map Prod.fst).Nodup → (idx2.map Prod.fst).Nodup) := by
  intro ts
  induction ts with
  | nil =>
    intro idx idx2 h
    unfold indexJumpTargetList at h
    injection h with h
    subst h
    simp
  | cons kv rest ih =>
    intro idx idx2 h
    unfold indexJumpTargetList at h
    split at h
    · exact Except.noConfusion h
    · cases ha : addAliases (.JumpTarget kv.1) kv.2.aliases idx with
      | error e => rw [ha] at h; exact Except.noConfusion h
      | ok idx1 =>
        rw [ha] at h
        obtain ⟨a1, a2⟩ := addAliases_ok ha
        obtain ⟨h1, h2⟩ := ih h
        constructor
        · rw [h1, a1]
          simp [List.append_assoc]
        · intro hnd
          exact h2 (a2 hnd)

theorem inlineAssembly_new_ok_nodup {id : IRIdentifier} {g : Bool} {t : String}
    {ps : List (IRIdentifier × IRInlineAssemblyParameter)} {cs : List String}
    {ts : List (IRIdentifier × IRInlineAssemblyJumpTarget)} {asm : IRInlineAssembly}
    (h : IRInlineAssembly.new id g t ps cs ts = .ok asm) :
    (aliasLists ps ts).flatten.Nodup := by
  unfold IRInlineAssembly.new at h
  cases h1 : indexParameterList ps [] with
  | error e => rw [h1] at h; exact Except.noConfusion h
  | ok idx1 =>
    rw [h1] at h
    have h' : (match indexJumpTargetList ts idx1 with
        | .error e => (.error e : Except IRError IRInlineAssembly)
        | .ok idx2 => .ok ⟨id, g, t, ps, cs, ts, idx2⟩) = .ok asm := h
    cases h2 : indexJumpTargetList ts idx1 with
    | error e => rw [h2] at h'; exact Except.noConfusion h'
    | ok idx2 =>
      obtain ⟨p1, p2⟩ := indexParameterList_ok h1
      obtain ⟨q1, q2⟩ := indexJumpTargetList_ok h2
      have hnd : (idx2.map Prod.fst).Nodup := q2 (p2 (by simp))
      rw [q1, p1] at hnd
      unfold aliasLists
      rw [List.flatten_append]
      simpa using hnd

/-- C8: if one alias string is carried by two distinct entities among an
inline-assembly block's parameters and jump targets (two distinct
positions in the combined alias-list sequence), `IRInlineAssembly::new`
fails; and whenever it succeeds, all aliases across parameters and jump
targets are pairwise distinct. -/

theorem claim8_alias_uniqueness :
    (∀ (id : IRIdentifier) (g : Bool) (t : String)
      (ps : List (IRIdentifier × IRInlineAssemblyParameter)) (cs : List String)
      (ts : List (IRIdentifier × IRInlineAssemblyJumpTarget)) (a : String) (i j : Nat)
      (hi : i < (aliasLists ps ts).length) (hj : j < (aliasLists ps ts).length),
      i ≠ j → a ∈ (aliasLists ps ts).get ⟨i, hi⟩ → a ∈ (aliasLists ps ts).get ⟨j, hj⟩ →
      isOkE (IRInlineAssembly.new id g t ps cs ts) = false)
    ∧ (∀ (id : IRIdentifier) (g : Bool) (t : String)
      (ps : List (IRIdentifier × IRInlineAssemblyParameter)) (cs : List String)
      (ts : List (IRIdentifier × IRInlineAssemblyJumpTarget)) (asm : IRInlineAssembly),
      IRInlineAssembly.new id g t ps cs ts = .ok asm →
      (aliasLists ps ts).flatten.Nodup) := by
  constructor
  · intro id g t ps cs ts a i j hi hj hij hmi hmj
    cases hres : IRInlineAssembly.new id g t ps cs ts with
    | error e => rfl
    | ok asm =>
      exfalso
      have hnd := inlineAssembly_new_ok_nodup hres
      rw [List.nodup_flatten] at hnd
      have hpw := hnd.2
      rw [List.pairwise_iff_getElem] at hpw
      rcases Nat.lt_or_ge i j with hlt | hge
      · exact hpw i j hi hj hlt (by simpa using hmi) (by simpa using hmj)
      · have hlt2 : j < i := Nat.lt_of_le_of_ne hge (Ne.symm hij)
        exact hpw j i hj hi hlt2 (by simpa using hmj) (by simpa using hmi)
  · intro id g t ps cs ts asm h
    exact inlineAssembly_new_ok_nodup h

/-- Witness for C8: the shared alias `"x"` makes construction fail, and a
block with no parameters or jump targets has pairwise distinct aliases. -/

theorem claim8_witness :
    isOkE (IRInlineAssembly.new 5 false "tpl" dupAliasParams [] dupAliasTargets) = false
    ∧ (aliasLists ([] : List (IRIdentifier × IRInlineAssemblyParameter))
        ([] : List (IRIdentifier × IRInlineAssemblyJumpTarget))).flatten.Nodup :=
  ⟨claim8_alias_uniqueness.1 5 false "tpl" dupAliasParams [] dupAliasTargets "x" 0 1
     (by decide) (by decide) (by decide) (by decide) (by decide),
   claim8_alias_uniqueness.2 9 true "t" [] [] [] ⟨9, true, "t", [], [], [], []⟩ rfl⟩

end Okroshka
